import Mathlib

/-!
Verification development for the agent-backend repository: an in-memory
task store (`toolsets/todo_tools.py`), an in-memory calendar-event store
(`toolsets/calendar_tools.py`), and the HTTP gateway (`main.py`) that reads
the stores directly.

The embedding is shallow:

* A timezone-naive `datetime` value is modelled as an `Int` counting seconds
  since 1970-01-01T00:00:00; `timedelta(minutes=m)` is `m * 60` seconds.
  All timestamps the repository produces are whole seconds (the parser below
  covers the canonical `YYYY-MM-DD[THH[:MM[:SS]]]` text forms used by the
  tools; fractional seconds are outside the model), so the exact integer
  arithmetic here agrees with Python's datetime arithmetic on these values.
* Each Python tool function becomes a pure Lean function from the store list
  (the module-level `_todos` / `_calendar_events`) and its arguments to the
  returned message string paired with the store list after the call.
  `uuid.uuid4()` is an external source of fresh identifiers; the generated
  identifier is passed in as an explicit argument.
* Python's `for ... if ... return` lookup loops become structural recursion
  over the list, returning on the first identifier match exactly as the
  source does.
-/

/-- Days from civil date to days since 1970-01-01 (proleptic Gregorian),
for years `1 ≤ y ≤ 9999` as accepted by Python's `datetime`. -/
def daysFromCivil (y m d : Nat) : Int :=
  let yAdj := if m ≤ 2 then y - 1 else y
  let era := yAdj / 400
  let yoe := yAdj % 400
  let mp := (m + 9) % 12
  let doy := (153 * mp + 2) / 5 + (d - 1)
  let doe := yoe * 365 + yoe / 4 + doy - yoe / 100
  (era : Int) * 146097 + (doe : Int) - 719468

/-- Seconds since the epoch of a civil timestamp. -/
def mkTimestamp (y m d h mi s : Nat) : Int :=
  daysFromCivil y m d * 86400 + ((h * 3600 + mi * 60 + s : Nat) : Int)

def isLeapYear (y : Nat) : Bool :=
  y % 4 = 0 && (y % 100 != 0 || y % 400 = 0)

def daysInMonth (y m : Nat) : Nat :=
  if m = 2 then (if isLeapYear y then 29 else 28)
  else if m = 4 || m = 6 || m = 9 || m = 11 then 30
  else 31

def validYMD (y m d : Nat) : Bool :=
  1 ≤ y && y ≤ 9999 && 1 ≤ m && m ≤ 12 && 1 ≤ d && d ≤ daysInMonth y m

def validHMS (h mi s : Nat) : Bool :=
  h ≤ 23 && mi ≤ 59 && s ≤ 59

def digitVal (c : Char) : Option Nat :=
  if c.isDigit then some (c.toNat - 48) else none

def read2 (a b : Char) : Option Nat := do
  let x ← digitVal a
  let y ← digitVal b
  pure (10 * x + y)

def read4 (a b c d : Char) : Option Nat := do
  let x ← digitVal a
  let y ← digitVal b
  let z ← digitVal c
  let w ← digitVal d
  pure (1000 * x + 100 * y + 10 * z + w)

/-- Model of `datetime.fromisoformat` on the canonical text forms the tools
document (`YYYY-MM-DD`, optionally followed by a single separator character
and `HH`, `HH:MM` or `HH:MM:SS`): `some` of the parsed instant in epoch
seconds when the text is well-formed and in range, `none` when parsing fails
(where CPython raises `ValueError`, which every caller in the repository
catches). -/
def fromisoformat (str : String) : Option Int :=
  match str.data with
  | [y1, y2, y3, y4, c1, m1, m2, c2, d1, d2] => do
    let y ← read4 y1 y2 y3 y4
    let m ← read2 m1 m2
    let d ← read2 d1 d2
    if c1 == '-' && c2 == '-' && validYMD y m d then
      pure (mkTimestamp y m d 0 0 0)
    else none
  | [y1, y2, y3, y4, c1, m1, m2, c2, d1, d2, _, h1, h2] => do
    let y ← read4 y1 y2 y3 y4
    let m ← read2 m1 m2
    let d ← read2 d1 d2
    let h ← read2 h1 h2
    if c1 == '-' && c2 == '-' && validYMD y m d && validHMS h 0 0 then
      pure (mkTimestamp y m d h 0 0)
    else none
  | [y1, y2, y3, y4, c1, m1, m2, c2, d1, d2, _, h1, h2, c3, n1, n2] => do
    let y ← read4 y1 y2 y3 y4
    let m ← read2 m1 m2
    let d ← read2 d1 d2
    let h ← read2 h1 h2
    let mi ← read2 n1 n2
    if c1 == '-' && c2 == '-' && c3 == ':' && validYMD y m d && validHMS h mi 0 then
      pure (mkTimestamp y m d h mi 0)
    else none
  | [y1, y2, y3, y4, c1, m1, m2, c2, d1, d2, _, h1, h2, c3, n1, n2, c4, s1, s2] => do
    let y ← read4 y1 y2 y3 y4
    let m ← read2 m1 m2
    let d ← read2 d1 d2
    let h ← read2 h1 h2
    let mi ← read2 n1 n2
    let s ← read2 s1 s2
    if c1 == '-' && c2 == '-' && c3 == ':' && c4 == ':'
        && validYMD y m d && validHMS h mi s then
      pure (mkTimestamp y m d h mi s)
    else none
  | _ => none

/-- Model of `datetime.date()` on an epoch-seconds instant: the day number,
i.e. the timestamp with its time-of-day component discarded. -/
def dateOf (t : Int) : Int := Int.fdiv t 86400

/-- `TodoItem` (todo_tools.py): one task record. -/
structure TodoItem where
  id : String
  description : String
  is_done : Bool := false
  priority : Int := 3
  estimated_duration_minutes : Option Int := none
  category : Option String := none
  project_or_path : Option String := none
deriving Repr, DecidableEq

/-- `CalendarEvent` (calendar_tools.py): one calendar-event record. -/
structure CalendarEvent where
  id : String
  title : String
  start_time : Int
  end_time : Int
  description : Option String := none
  location : Option String := none
deriving Repr, DecidableEq

/-- `add_task_to_list` (todo_tools.py): builds a `TodoItem` from the
arguments (completion flag defaulting to false) and appends it to the store;
`task_id` stands for the `str(uuid.uuid4())` the source generates. -/
def add_task_to_list (todos : List TodoItem) (task_id : String)
    (description : String) (priority : Int := 3)
    (estimated_duration_minutes : Option Int := none)
    (category : Option String := none) (project_or_path : Option String := none) :
    String × List TodoItem :=
  let todo_item : TodoItem :=
    { id := task_id, description := description, priority := priority,
      estimated_duration_minutes := estimated_duration_minutes,
      category := category, project_or_path := project_or_path }
  ("Task added with ID: " ++ task_id, todos ++ [todo_item])

/-- `list_current_tasks` (todo_tools.py): returns the store. -/
def list_current_tasks (todos : List TodoItem) : List TodoItem :=
  todos

/-- `remove_task_from_list` (todo_tools.py): rebinds the store to the list
comprehension keeping items whose id differs, then compares lengths to
decide the message. -/
def remove_task_from_list (todos : List TodoItem) (task_id : String) :
    String × List TodoItem :=
  let after := todos.filter (fun todo => todo.id ≠ task_id)
  if after.length = todos.length then
    ("No task found with ID: " ++ task_id, after)
  else
    ("Task with ID: " ++ task_id ++ " has been removed", after)

/-- `update_task_status` (todo_tools.py): walks the store, mutating the first
item with the given id and returning immediately; falls through to the
not-found message. -/
def update_task_status : List TodoItem → String → Bool → String × List TodoItem
  | [], task_id, _ => ("No task found with ID: " ++ task_id, [])
  | todo :: rest, task_id, is_done =>
    if todo.id = task_id then
      let status := if is_done then "completed" else "marked as not complete"
      ("Task with ID: " ++ task_id ++ " has been " ++ status,
       { todo with is_done := is_done } :: rest)
    else
      let r := update_task_status rest task_id is_done
      (r.1, todo :: r.2)

/-- Lookup loop of `update_task_priority` (todo_tools.py), entered after the
range check passed. -/
def update_task_priority_loop : List TodoItem → String → Int → String × List TodoItem
  | [], task_id, _ => ("No task found with ID: " ++ task_id, [])
  | todo :: rest, task_id, priority =>
    if todo.id = task_id then
      ("Task with ID: " ++ task_id ++ " has been updated to priority " ++ toString priority,
       { todo with priority := priority } :: rest)
    else
      let r := update_task_priority_loop rest task_id priority
      (r.1, todo :: r.2)

/-- `update_task_priority` (todo_tools.py): rejects a priority outside
`[1, 5]` before touching the store, else runs the lookup loop. -/
def update_task_priority (todos : List TodoItem) (task_id : String) (priority : Int) :
    String × List TodoItem :=
  if priority < 1 ∨ priority > 5 then
    ("Priority must be between 1 and 5", todos)
  else
    update_task_priority_loop todos task_id priority

/-- Lookup loop of `update_task_estimated_duration` (todo_tools.py). -/
def update_task_estimated_duration_loop :
    List TodoItem → String → Int → String × List TodoItem
  | [], task_id, _ => ("No task found with ID: " ++ task_id, [])
  | todo :: rest, task_id, minutes =>
    if todo.id = task_id then
      ("Task with ID: " ++ task_id ++ " has been updated with estimated duration of "
         ++ toString minutes ++ " minutes",
       { todo with estimated_duration_minutes := some minutes } :: rest)
    else
      let r := update_task_estimated_duration_loop rest task_id minutes
      (r.1, todo :: r.2)

/-- `update_task_estimated_duration` (todo_tools.py): rejects a nonpositive
duration before touching the store, else runs the lookup loop. -/
def update_task_estimated_duration (todos : List TodoItem) (task_id : String)
    (estimated_duration_minutes : Int) : String × List TodoItem :=
  if estimated_duration_minutes ≤ 0 then
    ("Duration must be greater than 0 minutes", todos)
  else
    update_task_estimated_duration_loop todos task_id estimated_duration_minutes

/-- `update_task_metadata` (todo_tools.py): on the first id match, assigns
whichever of the two optional fields were supplied (None leaves a field
unchanged), reporting "No changes specified" when both were omitted. -/
def update_task_metadata : List TodoItem → String → Option String → Option String →
    String × List TodoItem
  | [], task_id, _, _ => ("No task found with ID: " ++ task_id, [])
  | todo :: rest, task_id, category, project_or_path =>
    if todo.id = task_id then
      let withCat := match category with
        | some c => { todo with category := some c }
        | none => todo
      let withBoth := match project_or_path with
        | some p => { withCat with project_or_path := some p }
        | none => withCat
      let changes :=
        (match category with
          | some c => ["category=\x27" ++ c ++ "\x27"]
          | none => []) ++
        (match project_or_path with
          | some p => ["project_or_path=\x27" ++ p ++ "\x27"]
          | none => [])
      if changes.isEmpty then
        ("No changes specified", withBoth :: rest)
      else
        ("Task with ID: " ++ task_id ++ " has been updated with "
           ++ String.intercalate ", " changes,
         withBoth :: rest)
    else
      let r := update_task_metadata rest task_id category project_or_path
      (r.1, todo :: r.2)

/-- `create_calendar_event` (calendar_tools.py): parses `start_time`, computes
`end = start + duration_minutes` and appends the event; on a parse failure the
`except ValueError` branch returns the format-error string with the store
untouched. `event_id` stands for the generated `str(uuid.uuid4())`. The
source performs no range check on `duration_minutes`. -/
def create_calendar_event (events : List CalendarEvent) (event_id : String)
    (title : String) (start_time : String) (duration_minutes : Int)
    (description : Option String := none) (location : Option String := none) :
    String × List CalendarEvent :=
  match fromisoformat start_time with
  | none =>
    ("Error: Invalid datetime format. Please use ISO format (YYYY-MM-DDTHH:MM:SS)",
     events)
  | some start_datetime =>
    let end_datetime := start_datetime + duration_minutes * 60
    let event : CalendarEvent :=
      { id := event_id, title := title, start_time := start_datetime,
        end_time := end_datetime, description := description, location := location }
    ("Calendar event created with ID: " ++ event_id, events ++ [event])

/-- `list_calendar_events` (calendar_tools.py): with no date returns the
store; with a parseable date keeps exactly the events whose start date equals
it; the `except ValueError` branch returns the whole store unfiltered. -/
def list_calendar_events (events : List CalendarEvent) (date : Option String) :
    List CalendarEvent :=
  match date with
  | none => events
  | some d =>
    match fromisoformat d with
    | none => events
    | some filter_date =>
      events.filter (fun event => dateOf event.start_time = dateOf filter_date)

/-- `delete_calendar_event` (calendar_tools.py): same rebind-and-compare
shape as `remove_task_from_list`. -/
def delete_calendar_event (events : List CalendarEvent) (event_id : String) :
    String × List CalendarEvent :=
  let after := events.filter (fun event => event.id ≠ event_id)
  if after.length = events.length then
    ("No event found with ID: " ++ event_id, after)
  else
    ("Event with ID: " ++ event_id ++ " has been deleted", after)

/-- `update_calendar_event_time` (calendar_tools.py): on the first id match,
first applies a start-time change when given (recomputing `end` from the
event's pre-mutation duration; a parse failure returns with the event still
untouched), then applies a duration change when given (a nonpositive duration
returns the error AFTER any start-time mutation has already been applied),
then reports which pieces changed. -/
def update_calendar_event_time :
    List CalendarEvent → String → Option String → Option Int →
    String × List CalendarEvent
  | [], event_id, _, _ => ("No event found with ID: " ++ event_id, [])
  | event :: rest, event_id, start_time, duration_minutes =>
    if event.id = event_id then
      match start_time with
      | some s =>
        (match fromisoformat s with
         | none => ("Error: Invalid datetime format for start_time", event :: rest)
         | some new_start =>
           let duration := event.end_time - event.start_time
           let event1 := { event with start_time := new_start,
                                      end_time := new_start + duration }
           match duration_minutes with
           | some d =>
             if d ≤ 0 then
               ("Error: Duration must be greater than 0 minutes", event1 :: rest)
             else
               ("Event with ID: " ++ event_id ++ " has been updated (start time, duration)",
                { event1 with end_time := event1.start_time + d * 60 } :: rest)
           | none =>
             ("Event with ID: " ++ event_id ++ " has been updated (start time)",
              event1 :: rest))
      | none =>
        match duration_minutes with
        | some d =>
          if d ≤ 0 then
            ("Error: Duration must be greater than 0 minutes", event :: rest)
          else
            ("Event with ID: " ++ event_id ++ " has been updated (duration)",
             { event with end_time := event.start_time + d * 60 } :: rest)
        | none => ("No changes specified", event :: rest)
    else
      let r := update_calendar_event_time rest event_id start_time duration_minutes
      (r.1, event :: r.2)

/-- Reference semantics of the two Python module bindings for the task store.
`toolsets.todo_tools` holds the binding `_todos` that the tool functions use;
`main.py` does `from toolsets.todo_tools import _todos` once at import time,
which binds `main._todos` to whatever list OBJECT `toolsets._todos` then
names. In-place mutation (`list.append`, field assignment) is visible through
both bindings; a rebinding (`global _todos; _todos = [...]` in
`remove_task_from_list`) changes only the `toolsets` binding. The heap of
list objects is `cells`; the two bindings are indices into it. -/
structure TodoWorld where
  cells : List (List TodoItem)
  toolsRef : Nat
  mainRef : Nat
deriving Repr, DecidableEq

/-- Process start: one empty list object, both module bindings naming it. -/
def TodoWorld.init : TodoWorld :=
  { cells := [[]], toolsRef := 0, mainRef := 0 }

/-- The list object currently named by `toolsets.todo_tools._todos`. -/
def TodoWorld.toolsList (w : TodoWorld) : List TodoItem :=
  w.cells.getD w.toolsRef []

/-- `add_task_to_list` at world level: `_todos.append(...)` mutates the list
object in place, so the cell named by the toolset binding is updated and
every binding to that object observes the append. -/
def TodoWorld.addTask (w : TodoWorld) (task_id description : String) : TodoWorld :=
  { w with cells := w.cells.set w.toolsRef (add_task_to_list w.toolsList task_id description).2 }

/-- `remove_task_from_list` at world level: the list comprehension allocates
a NEW list object and `global _todos; _todos = ...` rebinds only the toolset
module's binding to it; `main._todos` keeps naming the old object. -/
def TodoWorld.removeTask (w : TodoWorld) (task_id : String) : TodoWorld :=
  { cells := w.cells ++ [(remove_task_from_list w.toolsList task_id).2],
    toolsRef := w.cells.length,
    mainRef := w.mainRef }

/-- The gateway `get_todos` endpoint (`main.py` `/todos`): returns
`TaskListResponse(tasks=_todos)` through `main.py`'s own binding. -/
def TodoWorld.get_todos (w : TodoWorld) : List TodoItem :=
  w.cells.getD w.mainRef []

/-- `list_current_tasks` at world level: reads through the toolset binding. -/
def TodoWorld.listCurrentTasks (w : TodoWorld) : List TodoItem :=
  list_current_tasks w.toolsList

/-- Calendar-store invariant claimed by the spec: every event ends no
earlier than it starts. -/
def calendarInvariant (events : List CalendarEvent) : Bool :=
  events.all (fun e => decide (e.start_time ≤ e.end_time))

theorem update_task_status_not_found (todos : List TodoItem) (tid : String) (b : Bool)
    (h : tid ∉ todos.map TodoItem.id) :
    update_task_status todos tid b = ("No task found with ID: " ++ tid, todos) := by
  induction todos with
  | nil => rfl
  | cons t rest ih =>
    have ht : t.id ≠ tid := by
      intro he; exact h (by simp [he])
    have ih' := ih (fun hm => h (by simp at hm ⊢; exact Or.inr hm))
    simp [update_task_status, ht, ih']

theorem update_task_priority_loop_not_found (todos : List TodoItem) (tid : String)
    (p : Int) (h : tid ∉ todos.map TodoItem.id) :
    update_task_priority_loop todos tid p = ("No task found with ID: " ++ tid, todos) := by
  induction todos with
  | nil => rfl
  | cons t rest ih =>
    have ht : t.id ≠ tid := by
      intro he; exact h (by simp [he])
    have ih' := ih (fun hm => h (by simp at hm ⊢; exact Or.inr hm))
    simp [update_task_priority_loop, ht, ih']

theorem update_task_estimated_duration_loop_not_found (todos : List TodoItem)
    (tid : String) (d : Int) (h : tid ∉ todos.map TodoItem.id) :
    update_task_estimated_duration_loop todos tid d =
      ("No task found with ID: " ++ tid, todos) := by
  induction todos with
  | nil => rfl
  | cons t rest ih =>
    have ht : t.id ≠ tid := by
      intro he; exact h (by simp [he])
    have ih' := ih (fun hm => h (by simp at hm ⊢; exact Or.inr hm))
    simp [update_task_estimated_duration_loop, ht, ih']

theorem update_task_metadata_not_found (todos : List TodoItem) (tid : String)
    (cat pop : Option String) (h : tid ∉ todos.map TodoItem.id) :
    update_task_metadata todos tid cat pop = ("No task found with ID: " ++ tid, todos) := by
  induction todos with
  | nil => rfl
  | cons t rest ih =>
    have ht : t.id ≠ tid := by
      intro he; exact h (by simp [he])
    have ih' := ih (fun hm => h (by simp at hm ⊢; exact Or.inr hm))
    simp [update_task_metadata, ht, ih']

theorem filter_ne_id_eq_self (todos : List TodoItem) (tid : String)
    (h : tid ∉ todos.map TodoItem.id) :
    todos.filter (fun todo => todo.id ≠ tid) = todos := by
  apply List.filter_eq_self.mpr
  intro a ha
  simp only [ne_eq, decide_eq_true_eq]
  intro he
  exact h (by simp; exact ⟨a, ha, he⟩)

theorem remove_task_not_found (todos : List TodoItem) (tid : String)
    (h : tid ∉ todos.map TodoItem.id) :
    remove_task_from_list todos tid = ("No task found with ID: " ++ tid, todos) := by
  have hf := filter_ne_id_eq_self todos tid h
  simp only [remove_task_from_list]
  rw [hf]
  simp

theorem update_task_status_idem (todos : List TodoItem) (tid : String) (b : Bool) :
    (update_task_status (update_task_status todos tid b).2 tid b).2 =
      (update_task_status todos tid b).2 := by
  induction todos with
  | nil => rfl
  | cons t rest ih =>
    by_cases h : t.id = tid
    · simp [update_task_status, h]
    · simp [update_task_status, h, ih]

theorem update_task_priority_loop_idem (todos : List TodoItem) (tid : String) (p : Int) :
    (update_task_priority_loop (update_task_priority_loop todos tid p).2 tid p).2 =
      (update_task_priority_loop todos tid p).2 := by
  induction todos with
  | nil => rfl
  | cons t rest ih =>
    by_cases h : t.id = tid
    · simp [update_task_priority_loop, h]
    · simp [update_task_priority_loop, h, ih]

theorem update_task_priority_idem (todos : List TodoItem) (tid : String) (p : Int) :
    (update_task_priority (update_task_priority todos tid p).2 tid p).2 =
      (update_task_priority todos tid p).2 := by
  by_cases h : p < 1 ∨ p > 5
  · simp [update_task_priority, h]
  · simp [update_task_priority, h, update_task_priority_loop_idem]

theorem update_task_estimated_duration_loop_idem (todos : List TodoItem)
    (tid : String) (d : Int) :
    (update_task_estimated_duration_loop
        (update_task_estimated_duration_loop todos tid d).2 tid d).2 =
      (update_task_estimated_duration_loop todos tid d).2 := by
  induction todos with
  | nil => rfl
  | cons t rest ih =>
    by_cases h : t.id = tid
    · simp [update_task_estimated_duration_loop, h]
    · simp [update_task_estimated_duration_loop, h, ih]

theorem update_task_estimated_duration_idem (todos : List TodoItem)
    (tid : String) (d : Int) :
    (update_task_estimated_duration
        (update_task_estimated_duration todos tid d).2 tid d).2 =
      (update_task_estimated_duration todos tid d).2 := by
  by_cases h : d ≤ 0
  · simp [update_task_estimated_duration, h]
  · simp [update_task_estimated_duration, h, update_task_estimated_duration_loop_idem]

theorem update_task_metadata_idem (todos : List TodoItem) (tid : String)
    (cat pop : Option String) :
    (update_task_metadata (update_task_metadata todos tid cat pop).2 tid cat pop).2 =
      (update_task_metadata todos tid cat pop).2 := by
  induction todos with
  | nil => rfl
  | cons t rest ih =>
    by_cases h : t.id = tid
    · cases cat <;> cases pop <;> simp [update_task_metadata, h]
    · cases cat <;> cases pop <;> simp [update_task_metadata, h, ih]

theorem remove_task_state (l : List TodoItem) (tid : String) :
    (remove_task_from_list l tid).2 = l.filter (fun todo => todo.id ≠ tid) := by
  simp only [remove_task_from_list]
  by_cases h : (l.filter (fun todo => todo.id ≠ tid)).length = l.length
  · rw [if_pos h]
  · rw [if_neg h]

theorem remove_task_idem (todos : List TodoItem) (tid : String) :
    (remove_task_from_list (remove_task_from_list todos tid).2 tid).2 =
      (remove_task_from_list todos tid).2 := by
  rw [remove_task_state, remove_task_state, List.filter_filter]
  simp

theorem filter_ne_id_length (todos : List TodoItem) (tid : String)
    (hnd : (todos.map TodoItem.id).Nodup) (hmem : tid ∈ todos.map TodoItem.id) :
    (todos.filter (fun todo => todo.id ≠ tid)).length + 1 = todos.length := by
  induction todos with
  | nil => simp at hmem
  | cons t rest ih =>
    simp only [List.map_cons, List.nodup_cons] at hnd
    by_cases h : t.id = tid
    · have hrest : tid ∉ rest.map TodoItem.id := h ▸ hnd.1
      rw [List.filter_cons]
      have hpt : (decide (t.id ≠ tid)) = false := by simp [h]
      rw [hpt, if_neg (by simp), filter_ne_id_eq_self rest tid hrest]
      simp
    · simp only [List.map_cons] at hmem
      rcases List.mem_cons.mp hmem with h1 | h1
      · exact absurd h1.symm h
      · rw [List.filter_cons]
        have hpt : (decide (t.id ≠ tid)) = true := by simp [h]
        rw [hpt, if_pos rfl]
        simp only [List.length_cons]
        have h2 := ih hnd.2 h1
        omega

theorem not_mem_filter_ne_id (todos : List TodoItem) (tid : String) :
    tid ∉ (todos.filter (fun todo => todo.id ≠ tid)).map TodoItem.id := by
  intro hmem
  rcases List.mem_map.mp hmem with ⟨x, hx, hid⟩
  have := List.of_mem_filter hx
  simp at this
  exact this hid

theorem update_task_priority_loop_append (pre l : List TodoItem) (tid : String)
    (p : Int) (hpre : ∀ x ∈ pre, x.id ≠ tid) :
    update_task_priority_loop (pre ++ l) tid p =
      ((update_task_priority_loop l tid p).1,
       pre ++ (update_task_priority_loop l tid p).2) := by
  induction pre with
  | nil => simp
  | cons a as ih =>
    have ha : a.id ≠ tid := hpre a (by simp)
    have ih2 := ih (fun x hx => hpre x (by simp [hx]))
    simp [update_task_priority_loop, ha, ih2]

theorem update_calendar_event_time_append (pre l : List CalendarEvent) (eid : String)
    (st : Option String) (dm : Option Int) (hpre : ∀ x ∈ pre, x.id ≠ eid) :
    update_calendar_event_time (pre ++ l) eid st dm =
      ((update_calendar_event_time l eid st dm).1,
       pre ++ (update_calendar_event_time l eid st dm).2) := by
  induction pre with
  | nil => simp
  | cons a as ih =>
    have ha : a.id ≠ eid := hpre a (by simp)
    have ih2 := ih (fun x hx => hpre x (by simp [hx]))
    simp [update_calendar_event_time, ha, ih2]

theorem create_event_all_le (events : List CalendarEvent) (eid title s : String)
    (dur : Int) (desc loc : Option String)
    (hinv : ∀ e ∈ events, e.start_time ≤ e.end_time) (hdur : 0 ≤ dur) :
    ∀ e ∈ (create_calendar_event events eid title s dur desc loc).2,
      e.start_time ≤ e.end_time := by
  unfold create_calendar_event
  cases hfi : fromisoformat s with
  | none => simpa using hinv
  | some ns =>
    intro e he
    simp only at he
    rcases List.mem_append.mp he with h1 | h1
    · exact hinv e h1
    · have he2 : e = { id := eid, title := title, start_time := ns,
                       end_time := ns + dur * 60, description := desc,
                       location := loc } := by
        simpa using h1
      subst he2
      dsimp only
      omega

theorem update_time_all_le (events : List CalendarEvent) (eid : String)
    (st : Option String) (dm : Option Int)
    (hinv : ∀ e ∈ events, e.start_time ≤ e.end_time) :
    ∀ e ∈ (update_calendar_event_time events eid st dm).2,
      e.start_time ≤ e.end_time := by
  induction events with
  | nil => simp [update_calendar_event_time]
  | cons ev rest ih =>
    have hev := hinv ev (List.mem_cons_self ev rest)
    have hrest : ∀ e ∈ rest, e.start_time ≤ e.end_time :=
      fun e he => hinv e (List.mem_cons_of_mem ev he)
    have ih2 := ih hrest
    by_cases h : ev.id = eid
    · cases st with
      | none =>
        cases dm with
        | none =>
          simp only [update_calendar_event_time, if_pos h]
          intro e he
          rcases List.mem_cons.mp he with h1 | h1
          · subst h1; exact hev
          · exact hrest e h1
        | some d =>
          simp only [update_calendar_event_time, if_pos h]
          by_cases hd : d ≤ 0
          · rw [if_pos hd]
            intro e he
            rcases List.mem_cons.mp he with h1 | h1
            · subst h1; exact hev
            · exact hrest e h1
          · rw [if_neg hd]
            intro e he
            rcases List.mem_cons.mp he with h1 | h1
            · subst h1; dsimp only; omega
            · exact hrest e h1
      | some s =>
        cases dm with
        | none =>
          cases hfi : fromisoformat s with
          | none =>
            simp only [update_calendar_event_time, if_pos h, hfi]
            intro e he
            rcases List.mem_cons.mp he with h1 | h1
            · subst h1; exact hev
            · exact hrest e h1
          | some ns =>
            simp only [update_calendar_event_time, if_pos h, hfi]
            intro e he
            rcases List.mem_cons.mp he with h1 | h1
            · subst h1; dsimp only; omega
            · exact hrest e h1
        | some d =>
          cases hfi : fromisoformat s with
          | none =>
            simp only [update_calendar_event_time, if_pos h, hfi]
            intro e he
            rcases List.mem_cons.mp he with h1 | h1
            · subst h1; exact hev
            · exact hrest e h1
          | some ns =>
            simp only [update_calendar_event_time, if_pos h, hfi]
            by_cases hd : d ≤ 0
            · rw [if_pos hd]
              intro e he
              rcases List.mem_cons.mp he with h1 | h1
              · subst h1; dsimp only; omega
              · exact hrest e h1
            · rw [if_neg hd]
              intro e he
              rcases List.mem_cons.mp he with h1 | h1
              · subst h1; dsimp only; omega
              · exact hrest e h1
    · simp only [update_calendar_event_time, if_neg h]
      intro e he
      rcases List.mem_cons.mp he with h1 | h1
      · subst h1; exact hev
      · exact ih2 e h1

theorem delete_event_all_le (events : List CalendarEvent) (eid : String)
    (hinv : ∀ e ∈ events, e.start_time ≤ e.end_time) :
    ∀ e ∈ (delete_calendar_event events eid).2, e.start_time ≤ e.end_time := by
  simp only [delete_calendar_event]
  by_cases h : (events.filter (fun event => event.id ≠ eid)).length = events.length
  · rw [if_pos h]
    intro e he
    exact hinv e (List.mem_of_mem_filter he)
  · rw [if_neg h]
    intro e he
    exact hinv e (List.mem_of_mem_filter he)

theorem calendarInvariant_iff (events : List CalendarEvent) :
    calendarInvariant events = true ↔ ∀ e ∈ events, e.start_time ≤ e.end_time := by
  simp [calendarInvariant]

theorem update_task_metadata_none_none (todos : List TodoItem) (tid : String) :
    (update_task_metadata todos tid none none).2 = todos := by
  induction todos with
  | nil => rfl
  | cons t rest ih =>
    by_cases h : t.id = tid
    · simp [update_task_metadata, h]
    · simp [update_task_metadata, h, ih]

/-- Claim C1: the spec asserts that the gateway read path (`get_todos`
returning the `_todos` snapshot) and the tool-layer path
(`list_current_tasks`) always observe the same task collection. The code
violates this: `remove_task_from_list` REBINDS the module-level `_todos`
(`global _todos; _todos = [...]`) while `main.py` imported `_todos` by value
of reference at import time, so after a successful removal the gateway still
serves the pre-removal list object. This closed run evaluates the code on the
failing input (add one task, then remove it): the two paths disagree. -/
theorem C1_gateway_tool_paths_diverge :
    ((TodoWorld.init.addTask "t1" "buy milk").removeTask "t1").get_todos ≠
      list_current_tasks
        ((TodoWorld.init.addTask "t1" "buy milk").removeTask "t1").toolsList := by
  decide

/-- Claim C2 counterexample: `create_calendar_event` performs no range check
on `duration_minutes`, so a negative duration (here −30) is accepted and
stores an event whose end time precedes its start time, falsifying the
claimed invariant over every argument the operation accepts. -/
theorem C2_counterexample_negative_duration :
    calendarInvariant
      (create_calendar_event [] "e1" "meeting" "2024-01-01T09:00:00" (-30)).2 =
      false := by
  decide

/-- Claim C2 (amended): end time is always derived as start + duration at
creation and by the timing update, and the invariant `start_time ≤ end_time`
is preserved by every store operation PROVIDED the duration passed to
`create_calendar_event` is nonnegative; create itself does not validate the
duration (update does), so the unconditional invariant of the original claim
fails only through negative creation durations. -/
theorem C2_end_time_invariant (events : List CalendarEvent) (eid title s : String)
    (dur : Int) (desc loc : Option String) (st : Option String) (dm : Option Int) :
    (calendarInvariant events = true → 0 ≤ dur →
      calendarInvariant (create_calendar_event events eid title s dur desc loc).2 =
        true) ∧
    (calendarInvariant events = true →
      calendarInvariant (update_calendar_event_time events eid st dm).2 = true) ∧
    (calendarInvariant events = true →
      calendarInvariant (delete_calendar_event events eid).2 = true) := by
  refine ⟨fun hinv hdur => ?_, fun hinv => ?_, fun hinv => ?_⟩
  · rw [calendarInvariant_iff] at hinv ⊢
    exact create_event_all_le events eid title s dur desc loc hinv hdur
  · rw [calendarInvariant_iff] at hinv ⊢
    exact update_time_all_le events eid st dm hinv
  · rw [calendarInvariant_iff] at hinv ⊢
    exact delete_event_all_le events eid hinv

/-- Claim C2 witness: the invariant preservation theorem applied at concrete
stores and arguments. -/
theorem C2_end_time_invariant_witness :
    calendarInvariant
        (create_calendar_event [] "e1" "standup" "2024-01-01T09:00:00" 30).2 = true ∧
    calendarInvariant
        (update_calendar_event_time
          [{ id := "e1", title := "standup", start_time := 0, end_time := 1800 }]
          "e1" (some "2024-01-01T10:00:00") (some 45)).2 = true ∧
    calendarInvariant
        (delete_calendar_event
          [{ id := "e1", title := "standup", start_time := 0, end_time := 1800 }]
          "e1").2 = true := by
  refine ⟨?_, ?_, ?_⟩
  · exact (C2_end_time_invariant [] "e1" "standup" "2024-01-01T09:00:00" 30
      none none none none).1 (by decide) (by decide)
  · exact (C2_end_time_invariant
      [{ id := "e1", title := "standup", start_time := 0, end_time := 1800 }]
      "e1" "standup" "x" 0 none none (some "2024-01-01T10:00:00") (some 45)).2.1
      (by decide)
  · exact (C2_end_time_invariant
      [{ id := "e1", title := "standup", start_time := 0, end_time := 1800 }]
      "e1" "standup" "x" 0 none none none none).2.2 (by decide)

/-- Claim C4: for every parseable start time text and every duration,
`create_calendar_event` appends exactly one event whose end time is the
parsed start plus `duration_minutes` minutes, and reports the created id; in
particular the concrete instance from the spec: start 2024-01-01T09:00:00
with duration 30 yields end time 2024-01-01T09:30:00. -/
theorem C4_create_end_time (events : List CalendarEvent) (eid title s : String)
    (dur : Int) (desc loc : Option String) :
    (∀ ns, fromisoformat s = some ns →
      create_calendar_event events eid title s dur desc loc =
        ("Calendar event created with ID: " ++ eid,
         events ++ [{ id := eid, title := title, start_time := ns,
                      end_time := ns + dur * 60, description := desc,
                      location := loc }])) ∧
    ((create_calendar_event [] "e1" "standup" "2024-01-01T09:00:00" 30).2.map
        (fun e => some e.end_time) = [fromisoformat "2024-01-01T09:30:00"]) := by
  constructor
  · intro ns hfi
    simp [create_calendar_event, hfi]
  · decide

/-- Claim C4 witness: the creation theorem applied at the spec's concrete
input. -/
theorem C4_create_end_time_witness :
    create_calendar_event [] "e1" "standup" "2024-01-01T09:00:00" 30 =
      ("Calendar event created with ID: " ++ "e1",
       [{ id := "e1", title := "standup", start_time := 1704099600,
          end_time := 1704099600 + 30 * 60 }]) := by
  have h := (C4_create_end_time [] "e1" "standup" "2024-01-01T09:00:00" 30
    none none).1 1704099600 (by decide)
  simpa using h

/-- Claim C3: for the (first) event matching the given id,
`update_calendar_event_time` with only a parseable start time preserves the
original duration (end − start before mutation) and sets
end = new start + that duration; with only a positive duration it sets
end = current start + new duration leaving start unchanged; with both it
applies the start shift first and then the duration override, yielding
end = new start + new duration. -/
theorem C3_update_time_semantics (pre post : List CalendarEvent) (e : CalendarEvent)
    (eid s : String) (ns d : Int)
    (hpre : ∀ x ∈ pre, x.id ≠ eid) (he : e.id = eid) :
    (fromisoformat s = some ns →
      update_calendar_event_time (pre ++ e :: post) eid (some s) none =
        ("Event with ID: " ++ eid ++ " has been updated (start time)",
         pre ++ { e with start_time := ns,
                         end_time := ns + (e.end_time - e.start_time) } :: post)) ∧
    (0 < d →
      update_calendar_event_time (pre ++ e :: post) eid none (some d) =
        ("Event with ID: " ++ eid ++ " has been updated (duration)",
         pre ++ { e with end_time := e.start_time + d * 60 } :: post)) ∧
    (fromisoformat s = some ns → 0 < d →
      update_calendar_event_time (pre ++ e :: post) eid (some s) (some d) =
        ("Event with ID: " ++ eid ++ " has been updated (start time, duration)",
         pre ++ { e with start_time := ns, end_time := ns + d * 60 } :: post)) := by
  refine ⟨fun hfi => ?_, fun hd => ?_, fun hfi hd => ?_⟩
  · rw [update_calendar_event_time_append pre (e :: post) eid (some s) none hpre]
    simp [update_calendar_event_time, if_pos he, hfi]
  · have hd2 : ¬ d ≤ 0 := not_le.mpr hd
    rw [update_calendar_event_time_append pre (e :: post) eid none (some d) hpre]
    simp only [update_calendar_event_time, if_pos he]
    rw [if_neg hd2]
  · have hd2 : ¬ d ≤ 0 := not_le.mpr hd
    rw [update_calendar_event_time_append pre (e :: post) eid (some s) (some d) hpre]
    simp only [update_calendar_event_time, if_pos he, hfi]
    rw [if_neg hd2]

/-- Claim C3 witness: the timing-update theorem applied to the spec's
concrete scenario (shifting the start of a 30-minute event preserves the
30-minute duration). -/
theorem C3_update_time_semantics_witness :
    update_calendar_event_time
        [{ id := "e1", title := "standup", start_time := 1704099600,
           end_time := 1704101400 }] "e1" (some "2024-01-01T10:00:00") none =
      ("Event with ID: " ++ "e1" ++ " has been updated (start time)",
       [{ id := "e1", title := "standup", start_time := 1704103200,
          end_time := 1704105000 }]) := by
  have h := (C3_update_time_semantics [] []
    { id := "e1", title := "standup", start_time := 1704099600,
      end_time := 1704101400 } "e1" "2024-01-01T10:00:00" 1704103200 1
    (by simp) rfl).1 (by decide)
  simpa using h

/-- Claim C5: `update_task_priority` rejects any priority outside `[1, 5]`
with an error result and leaves the whole store (hence every priority)
unchanged; within `[1, 5]` (boundaries included) it updates the matching
task's priority in place. -/
theorem C5_priority_validation (todos pre post : List TodoItem) (t : TodoItem)
    (tid : String) (p : Int) :
    (p < 1 ∨ p > 5 →
      update_task_priority todos tid p = ("Priority must be between 1 and 5", todos)) ∧
    (1 ≤ p → p ≤ 5 → (∀ x ∈ pre, x.id ≠ tid) → t.id = tid →
      update_task_priority (pre ++ t :: post) tid p =
        ("Task with ID: " ++ tid ++ " has been updated to priority " ++ toString p,
         pre ++ { t with priority := p } :: post)) := by
  constructor
  · intro hout
    simp only [update_task_priority]
    rw [if_pos hout]
  · intro h1 h5 hpre ht
    have hin : ¬ (p < 1 ∨ p > 5) := by omega
    simp only [update_task_priority]
    rw [if_neg hin, update_task_priority_loop_append pre (t :: post) tid p hpre]
    simp [update_task_priority_loop, if_pos ht]

/-- Claim C5 witness: priority 0 is rejected leaving the store unchanged;
boundary priority 5 is accepted and applied. -/
theorem C5_priority_validation_witness :
    update_task_priority [{ id := "a", description := "x" }] "a" 0 =
      ("Priority must be between 1 and 5", [{ id := "a", description := "x" }]) ∧
    update_task_priority [{ id := "a", description := "x" }] "a" 5 =
      ("Task with ID: " ++ "a" ++ " has been updated to priority " ++ toString (5 : Int),
       [{ id := "a", description := "x", priority := 5 }]) := by
  constructor
  · exact (C5_priority_validation [{ id := "a", description := "x" }] [] []
      { id := "a", description := "x" } "a" 0).1 (by omega)
  · have h := (C5_priority_validation [] [] []
      { id := "a", description := "x" } "a" 5).2 (by omega) (by omega) (by simp) rfl
    simpa using h

/-- Claim C6: removing an absent identifier reports "not found" and leaves
the store unchanged; removing a present identifier (under the store's
id-uniqueness invariant) reports success, shrinks the store by exactly one,
and the identifier no longer appears in `list_current_tasks`. -/
theorem C6_remove_semantics (todos : List TodoItem) (tid : String) :
    (tid ∉ todos.map TodoItem.id →
      remove_task_from_list todos tid = ("No task found with ID: " ++ tid, todos)) ∧
    ((todos.map TodoItem.id).Nodup → tid ∈ todos.map TodoItem.id →
      (remove_task_from_list todos tid).1 =
          "Task with ID: " ++ tid ++ " has been removed" ∧
      (remove_task_from_list todos tid).2.length + 1 = todos.length ∧
      tid ∉ (list_current_tasks (remove_task_from_list todos tid).2).map
        TodoItem.id) := by
  constructor
  · exact remove_task_not_found todos tid
  · intro hnd hmem
    have hlen := filter_ne_id_length todos tid hnd hmem
    have hne : ¬ (todos.filter (fun todo => todo.id ≠ tid)).length = todos.length := by
      omega
    refine ⟨?_, ?_, ?_⟩
    · simp only [remove_task_from_list]
      rw [if_neg hne]
    · rw [remove_task_state]
      exact hlen
    · simp only [list_current_tasks, remove_task_state]
      exact not_mem_filter_ne_id todos tid

/-- Claim C6 witness: the removal theorem applied to a concrete two-task
store, for an absent and for a present identifier. -/
theorem C6_remove_semantics_witness :
    remove_task_from_list
        [{ id := "a", description := "x" }, { id := "b", description := "y" }] "z" =
      ("No task found with ID: " ++ "z",
       [{ id := "a", description := "x" }, { id := "b", description := "y" }]) ∧
    (remove_task_from_list
        [{ id := "a", description := "x" }, { id := "b", description := "y" }]
        "a").2.length + 1 = 2 := by
  constructor
  · exact (C6_remove_semantics
      [{ id := "a", description := "x" }, { id := "b", description := "y" }] "z").1
      (by decide)
  · exact ((C6_remove_semantics
      [{ id := "a", description := "x" }, { id := "b", description := "y" }] "a").2
      (by decide) (by decide)).2.1

/-- Claim C7: `list_calendar_events` with no date returns the whole store;
with a parseable date it returns exactly the events whose start-time date
component equals that date, in stored order (a filter of the store); with an
unparseable date the filter is silently skipped and the whole store is
returned. -/
theorem C7_list_filter_semantics (events : List CalendarEvent) :
    (list_calendar_events events none = events) ∧
    (∀ s fd, fromisoformat s = some fd →
      list_calendar_events events (some s) =
        events.filter (fun event => dateOf event.start_time = dateOf fd)) ∧
    (∀ s, fromisoformat s = none → list_calendar_events events (some s) = events) := by
  refine ⟨rfl, fun s fd hfi => ?_, fun s hfi => ?_⟩
  · simp [list_calendar_events, hfi]
  · simp [list_calendar_events, hfi]

/-- Claim C7 witness: the listing theorem applied to a concrete store holding
one event on 2024-01-01 and one on 2024-01-02: the date filter keeps exactly
the matching event, and the malformed date returns everything. -/
theorem C7_list_filter_semantics_witness :
    list_calendar_events
        [{ id := "e1", title := "a", start_time := 1704099600, end_time := 1704101400 },
         { id := "e2", title := "b", start_time := 1704186000, end_time := 1704187800 }]
        (some "2024-01-01") =
      [{ id := "e1", title := "a", start_time := 1704099600, end_time := 1704101400 }] ∧
    list_calendar_events
        [{ id := "e1", title := "a", start_time := 1704099600, end_time := 1704101400 },
         { id := "e2", title := "b", start_time := 1704186000, end_time := 1704187800 }]
        (some "not-a-date") =
      [{ id := "e1", title := "a", start_time := 1704099600, end_time := 1704101400 },
       { id := "e2", title := "b", start_time := 1704186000, end_time := 1704187800 }] := by
  constructor
  · have h := (C7_list_filter_semantics
      [{ id := "e1", title := "a", start_time := 1704099600, end_time := 1704101400 },
       { id := "e2", title := "b", start_time := 1704186000, end_time := 1704187800 }]).2.1
      "2024-01-01" 1704067200 (by decide)
    exact h.trans (by decide)
  · exact (C7_list_filter_semantics
      [{ id := "e1", title := "a", start_time := 1704099600, end_time := 1704101400 },
       { id := "e2", title := "b", start_time := 1704186000, end_time := 1704187800 }]).2.2
      "not-a-date" (by decide)

/-- Claim C8: each mutating task-store operation is idempotent on the store
state — running it a second time with the same arguments leaves the state of
the first run unchanged — and each locates its target by exact identifier
match only: an identifier matching no task exactly leaves the store
untouched. -/
theorem C8_mutations_idempotent (todos : List TodoItem) (tid : String) (b : Bool)
    (p d : Int) (cat pop : Option String) :
    ((update_task_status (update_task_status todos tid b).2 tid b).2 =
      (update_task_status todos tid b).2) ∧
    ((update_task_priority (update_task_priority todos tid p).2 tid p).2 =
      (update_task_priority todos tid p).2) ∧
    ((update_task_estimated_duration
        (update_task_estimated_duration todos tid d).2 tid d).2 =
      (update_task_estimated_duration todos tid d).2) ∧
    ((update_task_metadata (update_task_metadata todos tid cat pop).2 tid cat pop).2 =
      (update_task_metadata todos tid cat pop).2) ∧
    ((remove_task_from_list (remove_task_from_list todos tid).2 tid).2 =
      (remove_task_from_list todos tid).2) ∧
    (tid ∉ todos.map TodoItem.id →
      (update_task_status todos tid b).2 = todos ∧
      (update_task_priority todos tid p).2 = todos ∧
      (update_task_estimated_duration todos tid d).2 = todos ∧
      (update_task_metadata todos tid cat pop).2 = todos ∧
      (remove_task_from_list todos tid).2 = todos) := by
  refine ⟨update_task_status_idem todos tid b, update_task_priority_idem todos tid p,
    update_task_estimated_duration_idem todos tid d,
    update_task_metadata_idem todos tid cat pop, remove_task_idem todos tid,
    fun hnf => ?_⟩
  refine ⟨?_, ?_, ?_, ?_, ?_⟩
  · rw [update_task_status_not_found todos tid b hnf]
  · simp only [update_task_priority]
    by_cases hp : p < 1 ∨ p > 5
    · rw [if_pos hp]
    · rw [if_neg hp, update_task_priority_loop_not_found todos tid p hnf]
  · simp only [update_task_estimated_duration]
    by_cases hd : d ≤ 0
    · rw [if_pos hd]
    · rw [if_neg hd, update_task_estimated_duration_loop_not_found todos tid d hnf]
  · rw [update_task_metadata_not_found todos tid cat pop hnf]
  · rw [remove_task_not_found todos tid hnf]

/-- Claim C8 witness: the idempotence-and-exact-match theorem applied to a
concrete one-task store with a non-matching identifier. -/
theorem C8_mutations_idempotent_witness :
    (update_task_status [{ id := "a", description := "x" }] "zz" true).2 =
        [{ id := "a", description := "x" }] ∧
    (remove_task_from_list [{ id := "a", description := "x" }] "zz").2 =
        [{ id := "a", description := "x" }] := by
  have h := (C8_mutations_idempotent [{ id := "a", description := "x" }] "zz" true 2 10
    none none).2.2.2.2.2 (by decide)
  exact ⟨h.1, h.2.2.2.2⟩

/-- Claim C9: tool-level failures are returned as descriptive string results
with the store left unchanged, never raised: an unparseable start time makes
`create_calendar_event` return the format-error string without adding an
event; an out-of-range priority, a nonpositive duration, a missing removal
target, and a no-argument metadata update likewise leave their store
untouched and report via the returned string. (In the embedding every tool
is a total function into `String × store`, mirroring the source's
error-as-value convention.) -/
theorem C9_errors_as_values (todos : List TodoItem) (events : List CalendarEvent)
    (tid eid title s : String) (desc loc : Option String) (dur p d : Int) :
    (fromisoformat s = none →
      create_calendar_event events eid title s dur desc loc =
        ("Error: Invalid datetime format. Please use ISO format (YYYY-MM-DDTHH:MM:SS)",
         events)) ∧
    (p < 1 ∨ p > 5 →
      update_task_priority todos tid p = ("Priority must be between 1 and 5", todos)) ∧
    (d ≤ 0 →
      update_task_estimated_duration todos tid d =
        ("Duration must be greater than 0 minutes", todos)) ∧
    (tid ∉ todos.map TodoItem.id →
      remove_task_from_list todos tid = ("No task found with ID: " ++ tid, todos)) ∧
    ((update_task_metadata todos tid none none).2 = todos) := by
  refine ⟨fun hfi => ?_, fun hp => ?_, fun hd => ?_,
    remove_task_not_found todos tid, update_task_metadata_none_none todos tid⟩
  · simp [create_calendar_event, hfi]
  · simp only [update_task_priority]
    rw [if_pos hp]
  · simp only [update_task_estimated_duration]
    rw [if_pos hd]

/-- Claim C9 witness: the error-as-value theorem applied to an unparseable
timestamp and a nonpositive duration on concrete stores. -/
theorem C9_errors_as_values_witness :
    create_calendar_event [] "e9" "t" "not-a-timestamp" 30 =
      ("Error: Invalid datetime format. Please use ISO format (YYYY-MM-DDTHH:MM:SS)",
       []) ∧
    update_task_estimated_duration [{ id := "a", description := "x" }] "a" 0 =
      ("Duration must be greater than 0 minutes",
       [{ id := "a", description := "x" }]) := by
  constructor
  · exact (C9_errors_as_values [] [] "a" "e9" "t" "not-a-timestamp" none none
      30 3 1).1 (by decide)
  · exact (C9_errors_as_values [{ id := "a", description := "x" }] [] "a" "e9" "t"
      "not-a-timestamp" none none 30 3 0).2.2.1 (by decide)

/-- Claim C10: when `update_calendar_event_time` is given both a parseable
start time and a nonpositive duration for an existing event, it returns the
duration error string, but the start-time shift (and the corresponding end
recomputation from the old duration) has already been applied to the stored
event before the duration check runs — the edit persists despite the
reported error, so this failure path is not atomic. -/
theorem C10_failed_duration_keeps_start_shift (pre post : List CalendarEvent)
    (e : CalendarEvent) (eid s : String) (ns d : Int)
    (hpre : ∀ x ∈ pre, x.id ≠ eid) (he : e.id = eid)
    (hfi : fromisoformat s = some ns) (hd : d ≤ 0) :
    update_calendar_event_time (pre ++ e :: post) eid (some s) (some d) =
      ("Error: Duration must be greater than 0 minutes",
       pre ++ { e with start_time := ns,
                       end_time := ns + (e.end_time - e.start_time) } :: post) := by
  rw [update_calendar_event_time_append pre (e :: post) eid (some s) (some d) hpre]
  simp only [update_calendar_event_time, if_pos he, hfi]
  rw [if_pos hd]

/-- Claim C10 witness: the non-atomicity theorem applied to a concrete
event: the call reports the duration error yet the stored start time has
moved from 2024-01-01T09:00:00 to 2024-01-02T09:00:00. -/
theorem C10_failed_duration_keeps_start_shift_witness :
    update_calendar_event_time
        [{ id := "e1", title := "x", start_time := 1704099600,
           end_time := 1704101400 }] "e1" (some "2024-01-02T09:00:00") (some (-5)) =
      ("Error: Duration must be greater than 0 minutes",
       [{ id := "e1", title := "x", start_time := 1704186000,
          end_time := 1704187800 }]) := by
  have h := C10_failed_duration_keeps_start_shift [] []
    { id := "e1", title := "x", start_time := 1704099600, end_time := 1704101400 }
    "e1" "2024-01-02T09:00:00" 1704186000 (-5) (by simp) rfl (by decide) (by decide)
  simpa using h
